import Mathlib

/-!
Shallow embedding of the ReefShield multi-location prediction and caching
service (frontend data layer) together with the spec-modelled RiskAssessor
of the absent Python backend.

Modelling conventions:
* JavaScript numbers are embedded as `Rat` (all arithmetic in the embedded
  code is exact decimal arithmetic on the claim-relevant paths).
* Timestamps are milliseconds as `Int`; calendar dates are day numbers as
  `Int` (the ISO date string of a millisecond timestamp is its day number).
* `Math.random()` is an oracle passed in as a parameter.
* A JavaScript object used as a string-keyed record is an association list
  `List (String × _)` in insertion order.
* `Number(x.toFixed(n))` is rounding to `n` decimal places, half up.
-/

namespace ReefShield

/-- Discrete risk classification used across the system. -/
inductive RiskLevel
  | low
  | moderate
  | high
deriving DecidableEq, Repr

/-- Per-reading risk classes of `backendRealtimeService.convertTemperatureReading`. -/
inductive ReadingRisk
  | Safe
  | Watch
  | Warning
  | Critical
deriving DecidableEq, Repr

/-- Temperature trend classification. -/
inductive Trend
  | stable
  | increasing
  | decreasing
deriving DecidableEq, Repr

/-- Source tag of a temperature reading. -/
inductive SourceTag
  | Observed
  | Forecast
  | Historical
  | Predicted
deriving DecidableEq, Repr

/-- Rounding as JavaScript `Math.round`: half up. -/
def jsRound (x : Rat) : Int := ⌊x + 1 / 2⌋

/-- Embedding of `Number(x.toFixed(n))`: round to `n` decimal places. -/
def toFixed (n : Nat) (x : Rat) : Rat :=
  ((jsRound (x * (10 : Rat) ^ n) : Int) : Rat) / (10 : Rat) ^ n

/-! ## RiskAssessor (modelled from the spec)

The Python backend holding the RiskAssessor is not among the repository
sources under `src/`; only its HTTP responses are consumed there. The two
functions below are therefore modelled from the words of spec section 4.3. -/

/-- Modelled from the spec: the backend `computeDHW` is missing from `src/`.
Spec 4.3: take the most recent `windowWeeks * 7` daily readings; for each,
compute `hotspot = max(0, temperature - climatologicalMean)`; discard
hotspots `< 1.0`; sum the retained hotspots and divide by 7. The series is
ordered by date, most recent reading last. -/
def computeDHW (series : List Rat) (climatologicalMean : Rat)
    (windowWeeks : Nat := 12) : Rat :=
  let window := series.drop (series.length - windowWeeks * 7)
  let hotspots := window.map (fun t => max 0 (t - climatologicalMean))
  let retained := hotspots.filter (fun h => decide ((1 : Rat) ≤ h))
  retained.sum / 7

/-- Modelled from the spec: the backend `assessRisk` is missing from `src/`.
Spec 4.3: `anomaly = currentTemp - climatologicalMean`; `high` if
`dhw >= 4 OR anomaly >= 2.0`; else `moderate` if `dhw >= 2 OR anomaly >= 1.0`;
else `low`. -/
def assessRisk (dhw currentTemp climatologicalMean : Rat) : RiskLevel :=
  let anomaly := currentTemp - climatologicalMean
  if 4 ≤ dhw ∨ 2 ≤ anomaly then .high
  else if 2 ≤ dhw ∨ 1 ≤ anomaly then .moderate
  else .low

/-- Per-reading contribution to `computeDHW`: the retained hotspot value. -/
def dhwContribution (climatologicalMean t : Rat) : Rat :=
  if (1 : Rat) ≤ max 0 (t - climatologicalMean) then max 0 (t - climatologicalMean) else 0

/-! ## String helpers

The embedded code lowercases location names and collapses whitespace runs
(the JavaScript `replace(/\s+/g, c)` and `toLowerCase()`). -/

/-- Replace each maximal run of whitespace by a single `repl` character;
`prevWs` records whether the previous character was whitespace. -/
def squashWsGo (repl : Char) (prevWs : Bool) : List Char → List Char
  | [] => []
  | c :: cs =>
    if c.isWhitespace then
      (if prevWs then [] else [repl]) ++ squashWsGo repl true cs
    else
      c :: squashWsGo repl false cs

/-- Embedding of the JavaScript `s.replace(/\s+/g, repl)`. -/
def replaceWsRuns (repl : Char) (s : String) : String :=
  ⟨squashWsGo repl false s.data⟩

/-- Embedding of the JavaScript `s.toLowerCase()` (ASCII names only). -/
def toLowerString (s : String) : String :=
  ⟨s.data.map Char.toLower⟩

/-! ## chlorophyllData.ts -/

/-- Record shape of a parsed row of `nearest_valid_pixels.csv`. -/
structure ChlorophyllData where
  reef : String
  center_lat : Rat
  center_lon : Rat
  found : Bool
  rank : Nat
  pixel_lat : Rat
  pixel_lon : Rat
  chlor_a : Rat
  distance_km : Rat
deriving DecidableEq, Repr

/-- The literal `nameMapping` object of `getChlorophyllForLocation`. -/
def nameMapping : List (String × String) :=
  [("Jolly_Buoy", "Jolly_Buoy"),
   ("Neel Islands", "Neel_Island"),
   ("Mahatma Gandhi Marine National Park", "Mahatma_Gandhi_Marine_National_Park"),
   ("Havelock", "Havelock")]

/-- Embedding of `getChlorophyllForLocation` from `chlorophyllData.ts`. -/
def getChlorophyllForLocation (locationName : String)
    (chlorophyllData : List ChlorophyllData) : Option ChlorophyllData :=
  let reefName := (nameMapping.lookup locationName).getD (replaceWsRuns '_' locationName)
  chlorophyllData.find? (fun d => d.reef == reefName)

/-- Embedding of `getChlorophyllRiskLevel` from `chlorophyllData.ts`. -/
def getChlorophyllRiskLevel (chlorValue : Rat) (threshold : Rat := 0.77) : RiskLevel :=
  if threshold * 1.5 ≤ chlorValue then .high
  else if threshold ≤ chlorValue then .moderate
  else .low

/-! ## realtimeService.ts -/

namespace Realtime

/-- Wire shape `BackendTemperatureReading` (dates as day numbers). -/
structure BackendTemperatureReading where
  date : Int
  temperature : Rat
  is_predicted : Bool
deriving DecidableEq, Repr

/-- Wire shape `BackendLocationAnalysis`. -/
structure BackendLocationAnalysis where
  location_id : String
  location_name : String
  past_data : List BackendTemperatureReading
  future_data : List BackendTemperatureReading
  bleaching_threshold : Rat
  current_dhw : Rat
  risk_level : String
  last_updated : Int
deriving DecidableEq, Repr

/-- Wire shape `BackendCurrentData`; `coordinates` is `(lat, lon)`. -/
structure BackendCurrentData where
  location_id : String
  current_temp : Rat
  dhw : Rat
  risk_level : String
  coordinates : Rat × Rat
  last_updated : Int
deriving DecidableEq, Repr

/-- Metadata of the aggregate analysis response. -/
structure AnalysisMetadata where
  total_locations : Nat
  prediction_window_days : Nat
  past_days : Nat
  future_days : Nat
  bleaching_threshold : Rat
deriving DecidableEq, Repr

/-- Wire shape `BackendAnalysisResponse`; the `locations` record is an
association list in insertion order. -/
structure BackendAnalysisResponse where
  locations : List (String × BackendLocationAnalysis)
  metadata : AnalysisMetadata
  generated_at : Int
deriving DecidableEq, Repr

/-- Wire shape `BackendCurrentResponse`. -/
structure BackendCurrentResponse where
  locations : List (String × BackendCurrentData)
  generated_at : Int
deriving DecidableEq, Repr

/-- Frontend `TemperatureReading` of `realtimeService.ts`. -/
structure TemperatureReading where
  date : Int
  temperature : Rat
  is_predicted : Bool
deriving DecidableEq, Repr

/-- The optional `chlorophyll` field of `LocationData`. -/
structure Chlorophyll where
  value : Rat
  riskLevel : RiskLevel
  threshold : Rat
deriving DecidableEq, Repr

/-- Frontend `LocationData` of `realtimeService.ts`; `coordinates` is
`(lat, lng)` and `riskLevel` is the string cast straight through from the
backend. -/
structure LocationData where
  id : String
  name : String
  coordinates : Rat × Rat
  currentTemperature : Rat
  riskLevel : String
  dhw : Rat
  trend : Trend
  temperatureHistory : List TemperatureReading
  forecast : List TemperatureReading
  chlorophyll : Option Chlorophyll
deriving DecidableEq, Repr

/-- `CACHE_TTL = 5 * 60 * 1000` milliseconds. -/
def CACHE_TTL : Int := 5 * 60 * 1000

/-- A cache slot of `RealtimeDataService.cache`: data plus `Date.now()`
timestamp at store time. -/
structure CacheEntry (α : Type) where
  data : α
  timestamp : Int
deriving DecidableEq, Repr

/-- Embedding of `RealtimeDataService.isCacheValid`. -/
def isCacheValid (cacheEntry : Option (CacheEntry α)) (now : Int) : Bool :=
  match cacheEntry with
  | none => false
  | some entry => decide (now - entry.timestamp < CACHE_TTL)

/-- Mutable state of `RealtimeDataService` relevant to the claims. -/
structure ServiceState where
  locations : List LocationData
  analysisCache : Option (CacheEntry BackendAnalysisResponse)
  currentCache : Option (CacheEntry BackendCurrentResponse)
deriving DecidableEq, Repr

/-- A fetch response as seen by `fetchWithRetry`: its `ok` flag and its
HTTP status (standing in for the identity of the response). -/
structure Response where
  ok : Bool
  status : Nat
deriving DecidableEq, Repr

/-- Loop body of `RealtimeDataService.fetchWithRetry`: `attempt i` is the
outcome of the `i`-th `fetch` call (`none` when the fetch throws). Returns
the result together with the number of attempts performed. -/
def fetchGo (attempt : Nat → Option Response) (retries i : Nat) :
    Except Unit Response × Nat :=
  if _h : i < retries then
    match attempt i with
    | some response =>
      if response.ok then (Except.ok response, i + 1)
      else if i = retries - 1 then (Except.error (), i + 1)
      else fetchGo attempt retries (i + 1)
    | none =>
      if i = retries - 1 then (Except.error (), i + 1)
      else fetchGo attempt retries (i + 1)
  else (Except.error (), i)
termination_by retries - i

/-- Embedding of `RealtimeDataService.fetchWithRetry` (result only). -/
def fetchWithRetry (attempt : Nat → Option Response) (retries : Nat := 3) :
    Except Unit Response :=
  (fetchGo attempt retries 0).1

/-- Number of `fetch` attempts performed by `fetchWithRetry`. -/
def fetchAttempts (attempt : Nat → Option Response) (retries : Nat := 3) : Nat :=
  (fetchGo attempt retries 0).2

/-- Embedding of `RealtimeDataService.fetchAnalysisData`. The network side
(`fetchWithRetry` plus `response.json()`) is abstracted into `net`: `some d`
when a fresh fetch would succeed with payload `d`, `none` when it would
throw. Returns the result, the new state, and whether a fetch was issued. -/
def fetchAnalysisData (st : ServiceState) (now : Int)
    (net : Option BackendAnalysisResponse) :
    Except Unit BackendAnalysisResponse × ServiceState × Bool :=
  if isCacheValid st.analysisCache now then
    (match st.analysisCache with
     | some entry => Except.ok entry.data
     | none => Except.error (), st, false)
  else
    match net with
    | some d => (Except.ok d, { st with analysisCache := some ⟨d, now⟩ }, true)
    | none => (Except.error (), st, true)

/-- Embedding of `RealtimeDataService.fetchCurrentData`, as above. -/
def fetchCurrentData (st : ServiceState) (now : Int)
    (net : Option BackendCurrentResponse) :
    Except Unit BackendCurrentResponse × ServiceState × Bool :=
  if isCacheValid st.currentCache now then
    (match st.currentCache with
     | some entry => Except.ok entry.data
     | none => Except.error (), st, false)
  else
    match net with
    | some d => (Except.ok d, { st with currentCache := some ⟨d, now⟩ }, true)
    | none => (Except.error (), st, true)

/-- Milliseconds per day. -/
def msPerDay : Int := 24 * 60 * 60 * 1000

/-- Day number of a millisecond timestamp (the ISO date of
`new Date(t).toISOString().split('T')[0]`; floor division). -/
def msToDay (t : Int) : Int := Int.fdiv t msPerDay

/-- The `locationConfigs` literal of `getFallbackAnalysisData`. -/
def fallbackAnalysisConfigs : List (String × String) :=
  [("jolly-buoy", "Jolly_Buoy"),
   ("neel-islands", "Neel Islands"),
   ("mahatma-gandhi", "Mahatma Gandhi Marine National Park"),
   ("havelock", "Havelock")]

/-- Embedding of `RealtimeDataService.getFallbackAnalysisData`. `now` is
`Date.now()` in milliseconds; `rnd k` is the value of the `k`-th
`Math.random()` call (15 calls per location, in execution order). -/
def getFallbackAnalysisData (now : Int) (rnd : Nat → Rat) : BackendAnalysisResponse :=
  { locations := fallbackAnalysisConfigs.enum.map (fun p =>
      (p.2.1,
       { location_id := p.2.1,
         location_name := p.2.2,
         past_data := (List.range 8).map (fun (i : Nat) =>
           { date := msToDay (now - (7 - (i : Int)) * msPerDay),
             temperature := 28.5 + rnd (p.1 * 15 + i) * 2,
             is_predicted := false }),
         future_data := (List.range 7).map (fun (i : Nat) =>
           { date := msToDay (now + ((i : Int) + 1) * msPerDay),
             temperature := 29.0 + rnd (p.1 * 15 + 8 + i) * 2,
             is_predicted := true }),
         bleaching_threshold := 29.0,
         current_dhw := 2.5,
         risk_level := "moderate",
         last_updated := now })),
    metadata := { total_locations := 4, prediction_window_days := 14,
                  past_days := 7, future_days := 7, bleaching_threshold := 29.0 },
    generated_at := now }

/-- The `locationConfigs` literal of `getFallbackCurrentData`. -/
def fallbackCurrentConfigs : List (String × Rat × Rat) :=
  [("jolly-buoy", 11.495, 92.610),
   ("neel-islands", 11.832919, 93.052612),
   ("mahatma-gandhi", 11.5690, 92.6542),
   ("havelock", 11.960000, 93.000000)]

/-- Embedding of `RealtimeDataService.getFallbackCurrentData`. -/
def getFallbackCurrentData (now : Int) (rnd : Nat → Rat) : BackendCurrentResponse :=
  { locations := fallbackCurrentConfigs.enum.map (fun p =>
      (p.2.1,
       { location_id := p.2.1,
         current_temp := 28.5 + rnd p.1 * 2,
         dhw := 2.5,
         risk_level := "moderate",
         coordinates := p.2.2,
         last_updated := now })),
    generated_at := now }

/-- The inline trend computation of `convertBackendToLocationData`
(source lines 292-299): take `past_data.slice(-3)`, and when at least two
readings remain compare the last to the first of that slice. -/
def trendFromPast (past_data : List BackendTemperatureReading) : Trend :=
  let recentTemps := (past_data.drop (past_data.length - 3)).map (·.temperature)
  if 2 ≤ recentTemps.length then
    let diff := recentTemps.getLastD 0 - recentTemps.headD 0
    if 0.5 < diff then .increasing
    else if diff < -0.5 then .decreasing
    else .stable
  else .stable

/-- Embedding of `RealtimeDataService.convertBackendToLocationData`. The
`forEach` with an early `return` on a missing current entry is a
`filterMap` over `Object.values(analysisData.locations)`. -/
def convertBackendToLocationData (chlorophyllData : List ChlorophyllData)
    (analysisData : BackendAnalysisResponse) (currentData : BackendCurrentResponse) :
    List LocationData :=
  (analysisData.locations.map Prod.snd).filterMap (fun analysis =>
    match currentData.locations.lookup analysis.location_id with
    | none => none
    | some current =>
      let chlorData := getChlorophyllForLocation analysis.location_name chlorophyllData
      let chlorophyll : Option Chlorophyll := chlorData.map (fun cd =>
        { value := toFixed 3 cd.chlor_a,
          riskLevel := getChlorophyllRiskLevel cd.chlor_a 0.77,
          threshold := 0.77 })
      let temperatureHistory : List TemperatureReading :=
        analysis.past_data.map (fun reading =>
          { date := reading.date, temperature := reading.temperature,
            is_predicted := reading.is_predicted })
      let forecast : List TemperatureReading :=
        analysis.future_data.map (fun reading =>
          { date := reading.date, temperature := reading.temperature,
            is_predicted := reading.is_predicted })
      some { id := analysis.location_id,
             name := analysis.location_name,
             coordinates := current.coordinates,
             currentTemperature := toFixed 1 current.current_temp,
             riskLevel := current.risk_level,
             dhw := toFixed 1 current.dhw,
             trend := trendFromPast analysis.past_data,
             temperatureHistory := temperatureHistory,
             forecast := forecast,
             chlorophyll := chlorophyll })

/-- Embedding of `RealtimeDataService.updateLocationsFromAPI`: both fetches
run (`Promise.all`), and only when both succeed are the published locations
replaced; on any failure the prior locations are kept (the caches still
record whichever fetches succeeded, as in the source). -/
def updateLocationsFromAPI (chlorophyllData : List ChlorophyllData)
    (st : ServiceState) (now : Int)
    (netA : Option BackendAnalysisResponse) (netC : Option BackendCurrentResponse) :
    ServiceState :=
  let ra := fetchAnalysisData st now netA
  let rc := fetchCurrentData ra.2.1 now netC
  match ra.1, rc.1 with
  | Except.ok a, Except.ok c =>
      { rc.2.1 with locations := convertBackendToLocationData chlorophyllData a c }
  | _, _ => rc.2.1

end Realtime

/-! ## apiClient.ts (response shapes) -/

namespace Api

/-- Wire shape `TemperatureReading` of `apiClient.ts`. -/
structure TemperatureReading where
  date : Int
  temperature : Rat
  source : SourceTag
deriving DecidableEq, Repr

/-- Wire shape `RiskAssessment`; `current_risk` is kept as a string since
the backend may also send values outside the three-level enum. -/
structure RiskAssessment where
  current_risk : String
  trend : Trend
  dhw : Option Rat
  anomaly : Option Rat
  bleaching_threshold : Option Rat
deriving DecidableEq, Repr

/-- Wire shape `ReefLocationData`; `coordinates` is `(lat, lon)`. -/
structure ReefLocationData where
  location_name : String
  coordinates : Rat × Rat
  last_updated : Int
  historical_data : List TemperatureReading
  predictions : List TemperatureReading
  risk_assessment : RiskAssessment
deriving DecidableEq, Repr

/-- Wire shape `CombinedTemperatureData`. -/
structure CombinedTemperatureData where
  location_name : String
  coordinates : Rat × Rat
  last_updated : Int
  data : List TemperatureReading
deriving DecidableEq, Repr

/-- Wire shape `ModelExecutionStatus`. -/
structure ModelExecutionStatus where
  is_running : Bool
  last_run : Option Int
  last_error : Option String
  next_scheduled_run : Option Int
deriving DecidableEq, Repr

/-- Wire shape `SystemStatus` (the untyped `data_files_status` field is
not consulted by the embedded code and is omitted). -/
structure SystemStatus where
  api_status : String
  model_status : ModelExecutionStatus
  last_data_update : Option Int
deriving DecidableEq, Repr

end Api

/-! ## backendRealtimeService.ts -/

namespace BackendRT

/-- Frontend `TemperatureReading` of `backendRealtimeService.ts`. -/
structure TemperatureReading where
  date : Int
  temperature : Rat
  anomaly : Rat
  riskLevel : ReadingRisk
  source : SourceTag
deriving DecidableEq, Repr

/-- The `chlorophyll` field; its risk level is the pass-through
`current_risk` string. -/
structure Chlorophyll where
  value : Rat
  riskLevel : String
  threshold : Rat
deriving DecidableEq, Repr

/-- Frontend `LocationData` of `backendRealtimeService.ts`. -/
structure LocationData where
  id : String
  name : String
  coordinates : Rat × Rat
  currentTemperature : Rat
  riskLevel : String
  dhw : Rat
  trend : Trend
  temperatureHistory : List TemperatureReading
  forecast : List TemperatureReading
  chlorophyll : Option Chlorophyll
deriving DecidableEq, Repr

/-- The `connectionStatus` union type. -/
inductive ConnStatus
  | connected
  | disconnected
  | error
deriving DecidableEq, Repr

/-- Mutable state of `BackendRealtimeService` relevant to the claims. -/
structure ServiceState where
  lastBackendData : Option Api.ReefLocationData
  lastCombinedData : Option Api.CombinedTemperatureData
  lastSystemStatus : Option Api.SystemStatus
  connectionStatus : ConnStatus
  errorCount : Nat
deriving DecidableEq, Repr

/-- `maxErrors = 3`. -/
def maxErrors : Nat := 3

/-- The freshly constructed service: `disconnected`, zero errors, no data. -/
def initialState : ServiceState :=
  { lastBackendData := none, lastCombinedData := none, lastSystemStatus := none,
    connectionStatus := .disconnected, errorCount := 0 }

/-- Embedding of `BackendRealtimeService.convertTemperatureReading`. -/
def convertTemperatureReading (backendReading : Api.TemperatureReading) :
    TemperatureReading :=
  let temp := backendReading.temperature
  let baselineTemp : Rat := 29.0
  let anomaly := temp - baselineTemp
  let riskLevel : ReadingRisk :=
    if 2.0 ≤ anomaly then .Critical
    else if 1.5 ≤ anomaly then .Warning
    else if 1.0 ≤ anomaly then .Watch
    else .Safe
  let source : SourceTag :=
    match backendReading.source with
    | .Historical => .Observed
    | .Predicted => .Forecast
    | .Observed => .Observed
    | .Forecast => .Forecast
  { date := backendReading.date, temperature := temp,
    anomaly := toFixed 2 anomaly, riskLevel := riskLevel, source := source }

/-- Embedding of `BackendRealtimeService.convertBackendDataToLocationData`;
`rnd` is the `Math.random()` value drawn for the simulated chlorophyll. -/
def convertBackendDataToLocationData (rnd : Rat) (backendData : Api.ReefLocationData) :
    LocationData :=
  let historical := backendData.historical_data.map convertTemperatureReading
  let forecast := backendData.predictions.map convertTemperatureReading
  let currentTemperature :=
    match historical.getLast? with
    | some currentReading => currentReading.temperature
    | none => (28.0 : Rat)
  let locationId := replaceWsRuns '-' (toLowerString backendData.location_name)
  { id := locationId,
    name := backendData.location_name,
    coordinates := backendData.coordinates,
    currentTemperature := toFixed 1 currentTemperature,
    riskLevel := backendData.risk_assessment.current_risk,
    dhw := backendData.risk_assessment.dhw.getD 0,
    trend := backendData.risk_assessment.trend,
    temperatureHistory := historical,
    forecast := forecast,
    chlorophyll := some { value := toFixed 3 (0.5 + rnd * 0.4),
                          riskLevel := backendData.risk_assessment.current_risk,
                          threshold := 0.77 } }

/-- Outcome of one `fetchBackendData` call: which of the sequential awaits
failed, if any, carrying the data already assigned before the failure. -/
inductive FetchOutcome
  | failConnect
  | failReef
  | failStatus (reefData : Api.ReefLocationData)
  | failCombined (reefData : Api.ReefLocationData) (systemStatus : Api.SystemStatus)
  | success (reefData : Api.ReefLocationData) (systemStatus : Api.SystemStatus)
      (combinedData : Api.CombinedTemperatureData)

/-- Whether the outcome is a full success. -/
def FetchOutcome.isSuccess : FetchOutcome → Bool
  | .success _ _ _ => true
  | _ => false

/-- The `catch` block of `fetchBackendData`: increment the error count and
set the status to `error` once `maxErrors` is reached. -/
def failStep (st : ServiceState) : ServiceState :=
  let ec := st.errorCount + 1
  { st with
    errorCount := ec,
    connectionStatus := if maxErrors ≤ ec then .error else .disconnected }

/-- Embedding of `BackendRealtimeService.fetchBackendData`; returns the new
state and the boolean result. -/
def fetchBackendData (st : ServiceState) : FetchOutcome → ServiceState × Bool
  | .failConnect => (failStep st, false)
  | .failReef => (failStep st, false)
  | .failStatus r => (failStep { st with lastBackendData := some r }, false)
  | .failCombined r s =>
      (failStep { st with lastBackendData := some r, lastSystemStatus := some s }, false)
  | .success r s c =>
      ({ st with
         lastBackendData := some r, lastSystemStatus := some s,
         lastCombinedData := some c,
         connectionStatus := .connected, errorCount := 0 }, true)

/-- Embedding of `BackendRealtimeService.getFallbackLocationData`. -/
def getFallbackLocationData : List LocationData :=
  [{ id := "andaman-reef", name := "Andaman Reef",
     coordinates := (11.67, 92.75),
     currentTemperature := 28.5, riskLevel := "low", dhw := 0.5,
     trend := .stable, temperatureHistory := [], forecast := [],
     chlorophyll := some { value := 0.65, riskLevel := "low", threshold := 0.77 } }]

/-- Embedding of `BackendRealtimeService.getCurrentData`. -/
def getCurrentData (st : ServiceState) (rnd : Rat) : List LocationData :=
  match st.connectionStatus, st.lastBackendData with
  | .connected, some backendData => [convertBackendDataToLocationData rnd backendData]
  | _, _ => getFallbackLocationData

/-- Run a sequence of `fetchBackendData` calls from the fresh service. -/
def runFetches (outs : List FetchOutcome) : ServiceState :=
  outs.foldl (fun st o => (fetchBackendData st o).1) initialState

/-- Number of consecutive failed calls at the end of the sequence. -/
def trailingFailures (outs : List FetchOutcome) : Nat :=
  (outs.reverse.takeWhile (fun o => !o.isSuccess)).length

end BackendRT

/-! ## Claim-side definitions -/

/-- The trend computation as claim C4 words it: compare the last reading to
the one 3 steps earlier, with the same 0.5 thresholds. Stated from the
claim, for comparison against the source `Realtime.trendFromPast`. -/
def trendSpecThreeBack (past_data : List Realtime.BackendTemperatureReading) : Trend :=
  let temps := past_data.map (·.temperature)
  let diff := temps.getLastD 0 - temps.getD (temps.length - 1 - 3) 0
  if 0.5 < diff then .increasing
  else if diff < -0.5 then .decreasing
  else .stable

/-- Whether the most recent `fetchBackendData` call succeeded (claim C8). -/
def lastSucceeded (outs : List BackendRT.FetchOutcome) : Bool :=
  (outs.getLast?.map BackendRT.FetchOutcome.isSuccess).getD false

/-! ## Concrete inputs used by witnesses and counterexamples -/

/-- A four-reading history whose last-versus-three-steps-earlier delta is
`1.0` while its last-versus-two-steps-earlier delta is `0`. -/
def c4PastData : List Realtime.BackendTemperatureReading :=
  [{ date := 0, temperature := 28, is_predicted := false },
   { date := 1, temperature := 29, is_predicted := false },
   { date := 2, temperature := 29, is_predicted := false },
   { date := 3, temperature := 29, is_predicted := false }]

/-- A fixed `Math.random()` oracle. -/
def zeroRnd : Nat → Rat := fun _ => 0

/-- A fresh `RealtimeDataService` state: no locations, empty caches. -/
def c1State : Realtime.ServiceState :=
  { locations := [], analysisCache := none, currentCache := none }

/-- A concrete analysis response. -/
def c1Resp : Realtime.BackendAnalysisResponse :=
  { locations := [],
    metadata := { total_locations := 4, prediction_window_days := 14,
                  past_days := 7, future_days := 7, bleaching_threshold := 29.0 },
    generated_at := 0 }

/-- A concrete historical reading served by the backend. -/
def c5Reading : Api.TemperatureReading :=
  { date := 0, temperature := 28, source := .Historical }

/-- A concrete backend payload for the Jolly Buoy reef. -/
def c5Reef : Api.ReefLocationData :=
  { location_name := "Jolly Buoy",
    coordinates := (11.495, 92.610),
    last_updated := 0,
    historical_data := [c5Reading],
    predictions := [],
    risk_assessment := { current_risk := "low", trend := .stable,
                         dhw := some 1, anomaly := none, bleaching_threshold := none } }

/-- A concrete healthy system status. -/
def c5Sys : Api.SystemStatus :=
  { api_status := "healthy",
    model_status := { is_running := false, last_run := none, last_error := none,
                      next_scheduled_run := none },
    last_data_update := none }

/-- A concrete combined-data payload. -/
def c5Combined : Api.CombinedTemperatureData :=
  { location_name := "Jolly Buoy", coordinates := (11.495, 92.610),
    last_updated := 0, data := [] }

/-- Service state after one successful fetch of `c5Reef`. -/
def c5St1 : BackendRT.ServiceState :=
  (BackendRT.fetchBackendData BackendRT.initialState
    (.success c5Reef c5Sys c5Combined)).1

/-- Service state after that success followed by one failed fetch. -/
def c5St2 : BackendRT.ServiceState :=
  (BackendRT.fetchBackendData c5St1 .failConnect).1

/-- A concrete attempt oracle: the first fetch returns a non-ok response,
every later fetch an ok one. -/
def c9Attempt : Nat → Option Realtime.Response :=
  fun k => if k = 0 then some { ok := false, status := 500 }
           else some { ok := true, status := 200 }

theorem dhw_filter_map_sum (m : Rat) (l : List Rat) :
    ((l.map (fun t => max 0 (t - m))).filter (fun h => decide ((1 : Rat) ≤ h))).sum
      = (l.map (dhwContribution m)).sum := by
  induction l with
  | nil => rfl
  | cons t ts ih =>
    by_cases h : (1 : Rat) ≤ max 0 (t - m)
    · simp only [List.map_cons, List.filter_cons, decide_eq_true h, if_true,
        List.sum_cons, ih, dhwContribution, if_pos h]
    · simp only [List.map_cons, List.filter_cons, decide_eq_false h,
        Bool.false_eq_true, if_false, ih, List.sum_cons, dhwContribution,
        if_neg h, zero_add]

theorem computeDHW_eq_sum_contrib (series : List Rat) (m : Rat) (w : Nat) :
    computeDHW series m w =
      ((series.drop (series.length - w * 7)).map (dhwContribution m)).sum / 7 := by
  unfold computeDHW
  dsimp only
  rw [dhw_filter_map_sum]

theorem dhwContribution_nonneg (m t : Rat) : 0 ≤ dhwContribution m t := by
  unfold dhwContribution
  split
  · exact le_max_left _ _
  · rfl

theorem dhwContribution_mono (m : Rat) {t t' : Rat} (h : t ≤ t') :
    dhwContribution m t ≤ dhwContribution m t' := by
  unfold dhwContribution
  have hmax : max 0 (t - m) ≤ max 0 (t' - m) :=
    max_le_max le_rfl (by linarith)
  split
  · rw [if_pos (le_trans (by assumption) hmax)]
    exact hmax
  · split
    · exact le_max_left _ _
    · exact le_rfl

theorem sum_map_dhwContribution_mono (m : Rat) {l₁ l₂ : List Rat}
    (h : List.Forall₂ (· ≤ ·) l₁ l₂) :
    (l₁.map (dhwContribution m)).sum ≤ (l₂.map (dhwContribution m)).sum := by
  induction h with
  | nil => exact le_rfl
  | cons hab _ ih =>
    simp only [List.map_cons, List.sum_cons]
    exact add_le_add (dhwContribution_mono m hab) ih

theorem forall₂_le_set (l : List Rat) (i : Nat) (t' : Rat) (h : l.getD i t' ≤ t') :
    List.Forall₂ (· ≤ ·) l (l.set i t') := by
  induction l generalizing i with
  | nil => exact List.Forall₂.nil
  | cons a as ih =>
    cases i with
    | zero =>
      rw [List.getD_cons_zero] at h
      exact List.Forall₂.cons h (List.forall₂_refl as)
    | succ n =>
      rw [List.getD_cons_succ] at h
      exact List.Forall₂.cons le_rfl (ih n h)

/-- C7 (amended): `computeDHW` is monotonically non-decreasing in each
individual input temperature (raising any single reading in the series
cannot lower the returned DHW), and it returns exactly 0 whenever every
reading in the window is strictly below `climatologicalMean + 1.0`. -/
theorem computeDHW_monotone_and_zero :
    (∀ (series : List Rat) (m : Rat) (w i : Nat) (t' : Rat),
        series.getD i t' ≤ t' →
        computeDHW series m w ≤ computeDHW (series.set i t') m w) ∧
    (∀ (series : List Rat) (m : Rat) (w : Nat),
        (∀ t ∈ series.drop (series.length - w * 7), t < m + 1) →
        computeDHW series m w = 0) := by
  constructor
  · intro series m w i t' h
    rw [computeDHW_eq_sum_contrib, computeDHW_eq_sum_contrib, List.length_set]
    have hf : List.Forall₂ (· ≤ ·) (series.drop (series.length - w * 7))
        ((series.set i t').drop (series.length - w * 7)) :=
      List.forall₂_drop _ (forall₂_le_set series i t' h)
    exact (div_le_div_iff_of_pos_right (by norm_num : (0 : Rat) < 7)).mpr
      (sum_map_dhwContribution_mono m hf)
  · intro series m w h
    rw [computeDHW_eq_sum_contrib]
    have hz : ∀ x ∈ (series.drop (series.length - w * 7)).map (dhwContribution m), x = 0 := by
      intro x hx
      rcases List.mem_map.mp hx with ⟨t, ht, rfl⟩
      have hlt := h t ht
      unfold dhwContribution
      rw [if_neg]
      intro hc
      have hm1 : max 0 (t - m) < 1 := max_lt (by norm_num) (by linarith)
      linarith
    rw [List.sum_eq_zero hz, zero_div]

/-- C7 counterexample: with a single reading exactly at
`climatologicalMean + 1.0` (which does not exceed it), `computeDHW` returns
`1/7`, not `0.0`, refuting the claim as stated at its boundary. -/
theorem computeDHW_boundary_cex :
    computeDHW [30] 29 12 = 1 / 7 ∧ ¬ ((29 : Rat) + 1 < 30) ∧ (1 / 7 : Rat) ≠ 0 := by
  refine ⟨?_, by norm_num, by norm_num⟩
  norm_num [computeDHW, List.filter]

/-- C7 witness: the amended theorem applied at concrete inputs. -/
theorem computeDHW_monotone_and_zero_witness :
    computeDHW [28, 29] 29 12 ≤ computeDHW ([28, 29].set 1 30) 29 12 ∧
      computeDHW [28, 29] 29 12 = 0 :=
  ⟨computeDHW_monotone_and_zero.1 [28, 29] 29 12 1 30 (by norm_num [List.getD]),
   computeDHW_monotone_and_zero.2 [28, 29] 29 12 (by
     intro t ht
     simp only [List.length_cons, List.length_nil] at ht
     norm_num at ht
     rcases ht with h | h <;> rw [h] <;> norm_num)⟩

/-- C3: the spec-modelled `assessRisk` returns the highest class whose
condition holds with the fixed thresholds `dhw >= 4 OR anomaly >= 2.0` for
high and `dhw >= 2 OR anomaly >= 1.0` for moderate, for every call (the
thresholds are constants, not per-call parameters); and the in-source
`convertTemperatureReading` marks a reading `Critical` exactly when its
anomaly over the fixed 29.0 baseline is at least 2.0, `Safe` exactly when
it is below 1.0. -/
theorem assessRisk_threshold_classification :
    (∀ dhw currentTemp m : Rat,
        (assessRisk dhw currentTemp m = .high ↔ 4 ≤ dhw ∨ 2 ≤ currentTemp - m) ∧
        (assessRisk dhw currentTemp m = .moderate ↔
          ¬(4 ≤ dhw ∨ 2 ≤ currentTemp - m) ∧ (2 ≤ dhw ∨ 1 ≤ currentTemp - m)) ∧
        (assessRisk dhw currentTemp m = .low ↔
          ¬(4 ≤ dhw ∨ 2 ≤ currentTemp - m) ∧ ¬(2 ≤ dhw ∨ 1 ≤ currentTemp - m))) ∧
    (∀ r : Api.TemperatureReading,
        ((BackendRT.convertTemperatureReading r).riskLevel = .Critical ↔
          (2.0 : Rat) ≤ r.temperature - 29.0) ∧
        ((BackendRT.convertTemperatureReading r).riskLevel = .Safe ↔
          r.temperature - 29.0 < 1.0)) := by
  constructor
  · intro dhw t m
    by_cases h1 : 4 ≤ dhw ∨ 2 ≤ t - m <;>
      by_cases h2 : 2 ≤ dhw ∨ 1 ≤ t - m <;>
        simp [assessRisk, h1, h2]
  · intro r
    unfold BackendRT.convertTemperatureReading
    dsimp only
    by_cases h1 : (2.0 : Rat) ≤ r.temperature - 29.0
    · rw [if_pos h1]
      refine ⟨⟨fun _ => h1, fun _ => rfl⟩, ?_, ?_⟩
      · intro hc
        exact absurd hc (by simp)
      · intro hc
        exfalso
        norm_num at h1 hc
        linarith
    · by_cases h2 : (1.5 : Rat) ≤ r.temperature - 29.0
      · rw [if_neg h1, if_pos h2]
        refine ⟨⟨fun hc => absurd hc (by simp), fun hc => absurd hc h1⟩, ?_, ?_⟩
        · intro hc
          exact absurd hc (by simp)
        · intro hc
          exfalso
          norm_num at h2 hc
          linarith
      · by_cases h3 : (1.0 : Rat) ≤ r.temperature - 29.0
        · rw [if_neg h1, if_neg h2, if_pos h3]
          refine ⟨⟨fun hc => absurd hc (by simp), fun hc => absurd hc h1⟩, ?_, ?_⟩
          · intro hc
            exact absurd hc (by simp)
          · intro hc
            exfalso
            norm_num at h3 hc
            linarith
        · rw [if_neg h1, if_neg h2, if_neg h3]
          refine ⟨⟨fun hc => absurd hc (by simp), ?_⟩, fun _ => ?_, fun _ => rfl⟩
          · intro hc
            exfalso
            norm_num at h3 hc
            linarith
          · norm_num at h3 ⊢
            linarith

/-- C4 (amended): the trend is computed from the last three readings of
`past_data`, comparing the last reading to the first of those three (the
reading 2 steps earlier): increasing when the delta exceeds 0.5, decreasing
when it is below -0.5, else stable. -/
theorem trendFromPast_compares_two_back (pre : List Realtime.BackendTemperatureReading)
    (a b c : Realtime.BackendTemperatureReading) :
    Realtime.trendFromPast (pre ++ [a, b, c]) =
      (if 0.5 < c.temperature - a.temperature then .increasing
       else if c.temperature - a.temperature < -0.5 then .decreasing
       else .stable) := by
  unfold Realtime.trendFromPast
  have hlen : (pre ++ [a, b, c]).length = pre.length + 3 := by
    simp [List.length_append]
  have hdrop : (pre ++ [a, b, c]).drop ((pre ++ [a, b, c]).length - 3) = [a, b, c] := by
    rw [hlen, Nat.add_sub_cancel]
    exact List.drop_left pre [a, b, c]
  rw [hdrop]
  simp [List.getLastD_cons, List.getLastD_nil]

/-- C4 counterexample: on the concrete history `c4PastData` the source
computes `stable` while the claim (compare the last reading with the one 3
steps earlier) demands `increasing`. -/
theorem trendFromPast_three_step_cex :
    Realtime.trendFromPast c4PastData = .stable ∧
      trendSpecThreeBack c4PastData = .increasing := by
  constructor <;>
    norm_num [Realtime.trendFromPast, trendSpecThreeBack, c4PastData,
      List.getLastD_cons, List.getLastD_nil, List.getD]

/-- C2 (code bug): the fallback analysis data carries 8 past readings per
location (the days `now-7 .. now` inclusive) even though the response
metadata built by the same function declares `past_days = 7`; the future
data does consist of 7 readings on the 7 consecutive calendar days
immediately following the last past date. Evaluated at `now = 0` with the
zero random oracle. -/
theorem getFallbackAnalysisData_past_length_eight :
    ((Realtime.getFallbackAnalysisData 0 zeroRnd).locations.map
        (fun p => p.2.past_data.length)) = [8, 8, 8, 8] ∧
      (Realtime.getFallbackAnalysisData 0 zeroRnd).metadata.past_days = 7 ∧
      ((Realtime.getFallbackAnalysisData 0 zeroRnd).locations.map
        (fun p => p.2.past_data.map (·.date))) =
        [[-7, -6, -5, -4, -3, -2, -1, 0], [-7, -6, -5, -4, -3, -2, -1, 0],
         [-7, -6, -5, -4, -3, -2, -1, 0], [-7, -6, -5, -4, -3, -2, -1, 0]] ∧
      ((Realtime.getFallbackAnalysisData 0 zeroRnd).locations.map
        (fun p => p.2.future_data.map (·.date))) =
        [[1, 2, 3, 4, 5, 6, 7], [1, 2, 3, 4, 5, 6, 7],
         [1, 2, 3, 4, 5, 6, 7], [1, 2, 3, 4, 5, 6, 7]] := by
  refine ⟨?_, rfl, ?_, ?_⟩ <;> decide

/-- C1: after a successful fetch at time `t0` stored in the analysis cache,
any two further `fetchAnalysisData` calls within `CACHE_TTL` of `t0` (with
no intervening cache mutation) are answered from the cache: both return the
identical cached response, and hence the identical analysis for every
location, issue no fetch, and leave the service state unchanged. -/
theorem fetchAnalysisData_cache_hit_idempotent
    (st : Realtime.ServiceState) (d : Realtime.BackendAnalysisResponse)
    (t0 t1 t2 : Int) (net1 net2 : Option Realtime.BackendAnalysisResponse)
    (hmiss : Realtime.isCacheValid st.analysisCache t0 = false)
    (_h01 : t0 ≤ t1) (h1 : t1 - t0 < Realtime.CACHE_TTL)
    (_h02 : t0 ≤ t2) (h2 : t2 - t0 < Realtime.CACHE_TTL) :
    Realtime.fetchAnalysisData st t0 (some d) =
      (Except.ok d, { st with analysisCache := some ⟨d, t0⟩ }, true) ∧
    Realtime.fetchAnalysisData { st with analysisCache := some ⟨d, t0⟩ } t1 net1 =
      (Except.ok d, { st with analysisCache := some ⟨d, t0⟩ }, false) ∧
    Realtime.fetchAnalysisData { st with analysisCache := some ⟨d, t0⟩ } t2 net2 =
      (Except.ok d, { st with analysisCache := some ⟨d, t0⟩ }, false) := by
  refine ⟨?_, ?_, ?_⟩
  · simp [Realtime.fetchAnalysisData, hmiss]
  · simp [Realtime.fetchAnalysisData, Realtime.isCacheValid, h1]
  · simp [Realtime.fetchAnalysisData, Realtime.isCacheValid, h2]

/-- C1 witness: the theorem applied at a fresh service state with a
concrete response and call times 0, 1, 2 milliseconds. -/
theorem fetchAnalysisData_cache_hit_idempotent_witness :
    Realtime.fetchAnalysisData c1State 0 (some c1Resp) =
      (Except.ok c1Resp, { c1State with analysisCache := some ⟨c1Resp, 0⟩ }, true) ∧
    Realtime.fetchAnalysisData { c1State with analysisCache := some ⟨c1Resp, 0⟩ } 1 none =
      (Except.ok c1Resp, { c1State with analysisCache := some ⟨c1Resp, 0⟩ }, false) ∧
    Realtime.fetchAnalysisData { c1State with analysisCache := some ⟨c1Resp, 0⟩ } 2 none =
      (Except.ok c1Resp, { c1State with analysisCache := some ⟨c1Resp, 0⟩ }, false) :=
  fetchAnalysisData_cache_hit_idempotent c1State c1Resp 0 1 2 none none
    rfl (by decide) (by decide) (by decide) (by decide)

theorem fetchGo_attempts_le_aux (attempt : Nat → Option Realtime.Response)
    (retries : Nat) :
    ∀ n i, retries - i ≤ n → i ≤ retries →
      (Realtime.fetchGo attempt retries i).2 ≤ retries := by
  intro n
  induction n with
  | zero =>
    intro i hn hi
    unfold Realtime.fetchGo
    rw [dif_neg (by omega)]
    exact hi
  | succ n ih =>
    intro i hn hi
    unfold Realtime.fetchGo
    by_cases hlt : i < retries
    · rw [dif_pos hlt]
      cases hA : attempt i with
      | some response =>
        dsimp only
        by_cases hok : response.ok = true
        · rw [if_pos hok]
          exact hlt
        · rw [if_neg hok]
          by_cases hlast : i = retries - 1
          · rw [if_pos hlast]
            exact hlt
          · rw [if_neg hlast]
            exact ih (i + 1) (by omega) (by omega)
      | none =>
        dsimp only
        by_cases hlast : i = retries - 1
        · rw [if_pos hlast]
          exact hlt
        · rw [if_neg hlast]
          exact ih (i + 1) (by omega) (by omega)
    · rw [dif_neg hlt]
      exact hi

theorem fetchGo_ok_flag (attempt : Nat → Option Realtime.Response) (retries : Nat) :
    ∀ n i r, retries - i ≤ n →
      (Realtime.fetchGo attempt retries i).1 = Except.ok r → r.ok = true := by
  intro n
  induction n with
  | zero =>
    intro i r hn hr
    unfold Realtime.fetchGo at hr
    rw [dif_neg (by omega)] at hr
    exact absurd hr (by simp)
  | succ n ih =>
    intro i r hn hr
    unfold Realtime.fetchGo at hr
    by_cases hlt : i < retries
    · rw [dif_pos hlt] at hr
      cases hA : attempt i with
      | some response =>
        rw [hA] at hr
        dsimp only at hr
        by_cases hok : response.ok = true
        · rw [if_pos hok] at hr
          have : response = r := by
            simpa using hr
          rw [← this]
          exact hok
        · rw [if_neg hok] at hr
          by_cases hlast : i = retries - 1
          · rw [if_pos hlast] at hr
            exact absurd hr (by simp)
          · rw [if_neg hlast] at hr
            exact ih (i + 1) r (by omega) hr
      | none =>
        rw [hA] at hr
        dsimp only at hr
        by_cases hlast : i = retries - 1
        · rw [if_pos hlast] at hr
          exact absurd hr (by simp)
        · rw [if_neg hlast] at hr
          exact ih (i + 1) r (by omega) hr
    · rw [dif_neg hlt] at hr
      exact absurd hr (by simp)

theorem fetchGo_first_ok_aux (attempt : Nat → Option Realtime.Response)
    (retries j : Nat) (r : Realtime.Response) (hj : j < retries)
    (hA : attempt j = some r) (hok : r.ok = true) :
    ∀ n i, j - i ≤ n → i ≤ j →
      (∀ k, i ≤ k → k < j → ∀ s, attempt k = some s → s.ok = false) →
      Realtime.fetchGo attempt retries i = (Except.ok r, j + 1) := by
  intro n
  induction n with
  | zero =>
    intro i hn hij _hbefore
    have hieq : i = j := by omega
    subst hieq
    unfold Realtime.fetchGo
    rw [dif_pos hj, hA]
    dsimp only
    rw [if_pos hok]
  | succ n ih =>
    intro i hn hij hbefore
    by_cases hieq : i = j
    · subst hieq
      unfold Realtime.fetchGo
      rw [dif_pos hj, hA]
      dsimp only
      rw [if_pos hok]
    · have hilt : i < j := by omega
      unfold Realtime.fetchGo
      rw [dif_pos (by omega : i < retries)]
      cases hAi : attempt i with
      | some s =>
        dsimp only
        have hsf : s.ok = false := hbefore i le_rfl hilt s hAi
        rw [if_neg (by simp [hsf]), if_neg (by omega : ¬ i = retries - 1)]
        exact ih (i + 1) (by omega) (by omega)
          (fun k hk1 hk2 s hs => hbefore k (by omega) hk2 s hs)
      | none =>
        dsimp only
        rw [if_neg (by omega : ¬ i = retries - 1)]
        exact ih (i + 1) (by omega) (by omega)
          (fun k hk1 hk2 s hs => hbefore k (by omega) hk2 s hs)

theorem fetchGo_all_fail (attempt : Nat → Option Realtime.Response) (retries : Nat) :
    ∀ n i, retries - i ≤ n →
      (∀ k, i ≤ k → k < retries → ∀ s, attempt k = some s → s.ok = false) →
      (Realtime.fetchGo attempt retries i).1 = Except.error () := by
  intro n
  induction n with
  | zero =>
    intro i hn _h
    unfold Realtime.fetchGo
    rw [dif_neg (by omega)]
  | succ n ih =>
    intro i hn h
    unfold Realtime.fetchGo
    by_cases hlt : i < retries
    · rw [dif_pos hlt]
      cases hAi : attempt i with
      | some s =>
        dsimp only
        have hsf := h i le_rfl hlt s hAi
        rw [if_neg (by simp [hsf])]
        by_cases hlast : i = retries - 1
        · rw [if_pos hlast]
        · rw [if_neg hlast]
          exact ih (i + 1) (by omega) (fun k hk => h k (by omega))
      | none =>
        dsimp only
        by_cases hlast : i = retries - 1
        · rw [if_pos hlast]
        · rw [if_neg hlast]
          exact ih (i + 1) (by omega) (fun k hk => h k (by omega))
    · rw [dif_neg hlt]

/-- C9: for every attempt oracle and `retries >= 1`, `fetchWithRetry`
performs at most `retries` fetch attempts, any response it returns has its
`ok` flag true, it returns the first ok response when one occurs within the
attempt budget, and it throws when every attempt either throws or returns a
non-ok response; a response with `ok = false` is never returned. -/
theorem fetchWithRetry_spec (attempt : Nat → Option Realtime.Response)
    (retries : Nat) (_hr : 1 ≤ retries) :
    Realtime.fetchAttempts attempt retries ≤ retries ∧
    (∀ r, Realtime.fetchWithRetry attempt retries = Except.ok r → r.ok = true) ∧
    (∀ j r, j < retries → attempt j = some r → r.ok = true →
        (∀ k, k < j → ∀ s, attempt k = some s → s.ok = false) →
        Realtime.fetchWithRetry attempt retries = Except.ok r ∧
          Realtime.fetchAttempts attempt retries = j + 1) ∧
    ((∀ j, j < retries → ∀ s, attempt j = some s → s.ok = false) →
        Realtime.fetchWithRetry attempt retries = Except.error ()) := by
  refine ⟨?_, ?_, ?_, ?_⟩
  · exact fetchGo_attempts_le_aux attempt retries retries 0 (by omega) (by omega)
  · intro r h
    exact fetchGo_ok_flag attempt retries retries 0 r (by omega) h
  · intro j r hj hA hok hbefore
    have heq := fetchGo_first_ok_aux attempt retries j r hj hA hok j 0 (by omega)
      (by omega) (fun k _ hk2 s hs => hbefore k hk2 s hs)
    unfold Realtime.fetchWithRetry Realtime.fetchAttempts
    rw [heq]
    exact ⟨rfl, rfl⟩
  · intro hall
    exact fetchGo_all_fail attempt retries retries 0 (by omega)
      (fun k _ hk s hs => hall k hk s hs)

/-- C9 witness: with an oracle whose first fetch returns a non-ok response
and whose second returns an ok one, `fetchWithRetry` with 3 retries returns
the second response after exactly 2 attempts. -/
theorem fetchWithRetry_spec_witness :
    Realtime.fetchWithRetry c9Attempt 3 = Except.ok { ok := true, status := 200 } ∧
      Realtime.fetchAttempts c9Attempt 3 = 2 :=
  (fetchWithRetry_spec c9Attempt 3 (by decide)).2.2.1 1 { ok := true, status := 200 }
    (by decide) rfl rfl (by
      intro k hk s hs
      have hk0 : k = 0 := by omega
      subst hk0
      rw [show c9Attempt 0 = some { ok := false, status := 500 } from rfl] at hs
      cases hs
      rfl)

theorem step_characterization (st : BackendRT.ServiceState) (o : BackendRT.FetchOutcome) :
    ((BackendRT.fetchBackendData st o).1.errorCount =
        if o.isSuccess then 0 else st.errorCount + 1) ∧
    ((BackendRT.fetchBackendData st o).1.connectionStatus =
        if o.isSuccess then .connected
        else if BackendRT.maxErrors ≤ st.errorCount + 1 then .error
        else .disconnected) := by
  cases o <;>
    simp [BackendRT.fetchBackendData, BackendRT.failStep, BackendRT.FetchOutcome.isSuccess]

theorem runFetches_concat (outs : List BackendRT.FetchOutcome) (o : BackendRT.FetchOutcome) :
    BackendRT.runFetches (outs ++ [o]) =
      (BackendRT.fetchBackendData (BackendRT.runFetches outs) o).1 := by
  unfold BackendRT.runFetches
  rw [List.foldl_append]
  rfl

theorem trailingFailures_concat (outs : List BackendRT.FetchOutcome)
    (o : BackendRT.FetchOutcome) :
    BackendRT.trailingFailures (outs ++ [o]) =
      (if o.isSuccess then 0 else BackendRT.trailingFailures outs + 1) := by
  unfold BackendRT.trailingFailures
  rw [List.reverse_append]
  simp only [List.reverse_cons, List.reverse_nil, List.nil_append, List.singleton_append,
    List.takeWhile_cons]
  cases ho : o.isSuccess <;> simp [ho, Nat.add_comm]

theorem lastSucceeded_concat (outs : List BackendRT.FetchOutcome)
    (o : BackendRT.FetchOutcome) :
    lastSucceeded (outs ++ [o]) = o.isSuccess := by
  unfold lastSucceeded
  rw [List.getLast?_concat]
  rfl

/-- C8: starting from the fresh `disconnected` service, after any sequence
of `fetchBackendData` outcomes the status is `connected` exactly when the
most recent call succeeded (which also resets the consecutive-failure
counter to zero), `error` exactly when at least `maxErrors = 3` calls have
failed consecutively since the last success or since construction, and
`disconnected` otherwise; the error counter always equals the number of
trailing consecutive failures. -/
theorem connectionStatus_characterization (outs : List BackendRT.FetchOutcome) :
    (BackendRT.runFetches outs).errorCount = BackendRT.trailingFailures outs ∧
    ((BackendRT.runFetches outs).connectionStatus = .connected ↔
      lastSucceeded outs = true) ∧
    ((BackendRT.runFetches outs).connectionStatus = .error ↔
      BackendRT.maxErrors ≤ BackendRT.trailingFailures outs) ∧
    ((BackendRT.runFetches outs).connectionStatus = .disconnected ↔
      lastSucceeded outs = false ∧
        BackendRT.trailingFailures outs < BackendRT.maxErrors) := by
  induction outs using List.reverseRecOn with
  | nil =>
    refine ⟨rfl, ?_, ?_, ?_⟩ <;>
      simp [BackendRT.runFetches, BackendRT.initialState, BackendRT.trailingFailures,
        lastSucceeded, BackendRT.maxErrors]
  | append_singleton outs o ih =>
    obtain ⟨ihc, _ihconn, _iherr, _ihdis⟩ := ih
    obtain ⟨hec, hcs⟩ := step_characterization (BackendRT.runFetches outs) o
    rw [runFetches_concat, trailingFailures_concat, lastSucceeded_concat]
    cases ho : o.isSuccess with
    | true =>
      rw [ho] at hec hcs
      simp only [if_true] at hec hcs
      refine ⟨?_, ?_, ?_, ?_⟩ <;>
        simp [hec, hcs, BackendRT.maxErrors]
    | false =>
      rw [ho] at hec hcs
      simp only [Bool.false_eq_true, if_false] at hec hcs
      rw [ihc] at hec hcs
      refine ⟨?_, ?_, ?_, ?_⟩
      · simp [hec]
      · rw [hcs]
        split <;> simp
      · rw [hcs]
        split <;> simp_all
      · rw [hcs]
        split <;> simp_all

/-- C6: converting the aggregate analysis and current responses never
aborts on a missing location: the produced location data are exactly, in
order, one entry per analysis whose `location_id` also has an entry in the
current response; a location missing from either response is simply
omitted while every location present in both is returned. -/
theorem convertBackendToLocationData_omits_missing
    (chlor : List ChlorophyllData) (analysisData : Realtime.BackendAnalysisResponse)
    (currentData : Realtime.BackendCurrentResponse) :
    (Realtime.convertBackendToLocationData chlor analysisData currentData).map (·.id) =
      ((analysisData.locations.map Prod.snd).filter
        (fun a => (currentData.locations.lookup a.location_id).isSome)).map
        (·.location_id) := by
  unfold Realtime.convertBackendToLocationData
  generalize analysisData.locations.map Prod.snd = l
  induction l with
  | nil => rfl
  | cons a as ih =>
    rw [List.filterMap_cons, List.filter_cons]
    cases h : currentData.locations.lookup a.location_id with
    | none => simp [h, ih]
    | some current => simp [h, ih]

theorem fetchCurrentData_locations (st : Realtime.ServiceState) (now : Int)
    (net : Option Realtime.BackendCurrentResponse) :
    (Realtime.fetchCurrentData st now net).2.1.locations = st.locations := by
  unfold Realtime.fetchCurrentData
  split
  · rfl
  · cases net <;> rfl

theorem fetchAnalysisData_locations (st : Realtime.ServiceState) (now : Int)
    (net : Option Realtime.BackendAnalysisResponse) :
    (Realtime.fetchAnalysisData st now net).2.1.locations = st.locations := by
  unfold Realtime.fetchAnalysisData
  split
  · rfl
  · cases net <;> rfl

/-- C5 (amended): in `RealtimeDataService` a refresh that fails on either
fetch leg leaves the published locations unchanged; in
`BackendRealtimeService` a fetch failing before reef data is received
leaves the cached backend data intact (a later-stage failure overwrites it
with the just-received payload), no failed fetch ever reports `connected`,
and `getCurrentData` then serves the simulated fallback data instead of
the cached last-good data whenever the connection status is not
`connected`. -/
theorem failure_preserves_cache_not_published :
    (∀ (chlor : List ChlorophyllData) (st : Realtime.ServiceState) (now : Int)
        (netA : Option Realtime.BackendAnalysisResponse)
        (netC : Option Realtime.BackendCurrentResponse),
        ((Realtime.fetchAnalysisData st now netA).1 = Except.error () ∨
          (Realtime.fetchCurrentData (Realtime.fetchAnalysisData st now netA).2.1
            now netC).1 = Except.error ()) →
        (Realtime.updateLocationsFromAPI chlor st now netA netC).locations =
          st.locations) ∧
    (∀ st : BackendRT.ServiceState,
        (BackendRT.fetchBackendData st .failConnect).1.lastBackendData =
          st.lastBackendData ∧
        (BackendRT.fetchBackendData st .failReef).1.lastBackendData =
          st.lastBackendData) ∧
    (∀ (st : BackendRT.ServiceState) (o : BackendRT.FetchOutcome),
        o.isSuccess = false →
        (BackendRT.fetchBackendData st o).1.connectionStatus ≠ .connected) ∧
    (∀ (st : BackendRT.ServiceState) (rnd : Rat),
        st.connectionStatus ≠ .connected →
        BackendRT.getCurrentData st rnd = BackendRT.getFallbackLocationData) := by
  refine ⟨?_, ?_, ?_, ?_⟩
  · intro chlor st now netA netC hfail
    unfold Realtime.updateLocationsFromAPI
    dsimp only
    cases hra : (Realtime.fetchAnalysisData st now netA).1 with
    | error e =>
      cases hrc : (Realtime.fetchCurrentData
          (Realtime.fetchAnalysisData st now netA).2.1 now netC).1 with
      | error e2 =>
        dsimp only
        rw [fetchCurrentData_locations, fetchAnalysisData_locations]
      | ok c =>
        dsimp only
        rw [fetchCurrentData_locations, fetchAnalysisData_locations]
    | ok a =>
      cases hrc : (Realtime.fetchCurrentData
          (Realtime.fetchAnalysisData st now netA).2.1 now netC).1 with
      | error e2 =>
        dsimp only
        rw [fetchCurrentData_locations, fetchAnalysisData_locations]
      | ok c =>
        exfalso
        rcases hfail with h | h
        · rw [hra] at h
          exact Except.noConfusion h
        · rw [hrc] at h
          exact Except.noConfusion h
  · intro st
    exact ⟨rfl, rfl⟩
  · intro st o ho
    cases o with
    | success r s c => simp [BackendRT.FetchOutcome.isSuccess] at ho
    | failConnect =>
      simp only [BackendRT.fetchBackendData, BackendRT.failStep]
      split <;> simp
    | failReef =>
      simp only [BackendRT.fetchBackendData, BackendRT.failStep]
      split <;> simp
    | failStatus r =>
      simp only [BackendRT.fetchBackendData, BackendRT.failStep]
      split <;> simp
    | failCombined r s =>
      simp only [BackendRT.fetchBackendData, BackendRT.failStep]
      split <;> simp
  · intro st rnd hne
    unfold BackendRT.getCurrentData
    cases hcs : st.connectionStatus with
    | connected => exact absurd hcs hne
    | disconnected => cases st.lastBackendData <;> rfl
    | error => cases st.lastBackendData <;> rfl

/-- C5 witness: the amended theorem applied at fresh concrete states, with
the current-data leg also exercised as the sole failing leg. -/
theorem failure_preserves_cache_not_published_witness :
    (Realtime.updateLocationsFromAPI [] c1State 0 none none).locations =
      c1State.locations ∧
    (Realtime.updateLocationsFromAPI [] c1State 0 (some c1Resp) none).locations =
      c1State.locations ∧
    (BackendRT.fetchBackendData BackendRT.initialState .failConnect).1.lastBackendData =
      BackendRT.initialState.lastBackendData ∧
    (BackendRT.fetchBackendData BackendRT.initialState .failReef).1.lastBackendData =
      BackendRT.initialState.lastBackendData ∧
    (BackendRT.fetchBackendData BackendRT.initialState .failReef).1.connectionStatus ≠
      BackendRT.ConnStatus.connected ∧
    BackendRT.getCurrentData BackendRT.initialState 0 =
      BackendRT.getFallbackLocationData :=
  ⟨failure_preserves_cache_not_published.1 [] c1State 0 none none (Or.inl rfl),
   failure_preserves_cache_not_published.1 [] c1State 0 (some c1Resp) none (Or.inr rfl),
   (failure_preserves_cache_not_published.2.1 BackendRT.initialState).1,
   (failure_preserves_cache_not_published.2.1 BackendRT.initialState).2,
   failure_preserves_cache_not_published.2.2.1 BackendRT.initialState .failReef rfl,
   failure_preserves_cache_not_published.2.2.2 BackendRT.initialState 0 (by decide)⟩

/-- C5 counterexample: after one successful fetch the service publishes the
converted Jolly Buoy data; one failed refresh leaves the cached backend
data in place, yet the published data switches to the simulated Andaman
Reef fallback, so previously served data is replaced by simulated data. -/
theorem getCurrentData_fallback_replaces_cex :
    (BackendRT.getCurrentData c5St1 0).map (·.id) = ["jolly-buoy"] ∧
      c5St2.lastBackendData = some c5Reef ∧
      (BackendRT.getCurrentData c5St2 0).map (·.id) = ["andaman-reef"] ∧
      (["andaman-reef"] : List String) ≠ ["jolly-buoy"] := by
  refine ⟨?_, rfl, rfl, by decide⟩
  rfl

end ReefShield
